import Mathlib

/-
Verification of the prod-health-guardian metrics pipeline.

Shallow embedding of the repository's metrics code:
  * src/prod_health_guardian/metrics/prometheus.py   (module-level gauges,
    update_cpu_metrics, get_latest_metrics)
  * src/prod_health_guardian/metrics/collectors.py   (MetricsCollector:
    _register_metrics, collect_metrics, update_prometheus_metrics,
    get_prometheus_metrics)
  * src/prod_health_guardian/collectors/cpu.py       (CPUCollector.collect)
  * src/prod_health_guardian/collectors/memory.py    (MemoryCollector.collect)
  * src/prod_health_guardian/collectors/gpu.py       (GPUCollector)
  * src/prod_health_guardian/models/metrics.py       (pydantic models)
  * src/prod_health_guardian/api/main.py             (HTTP handlers)

Python floats are embedded as rationals; the OS library (psutil) and the GPU
vendor library (pynvml) are black-box collaborators, so their readings enter
the embedding as explicit environment values, and a raised read-error is an
`Except.error` environment value.  The Prometheus client registry is embedded
as a list of instruments in registration order; each labeled instrument keeps
its samples as an association list in label-insertion order, which mirrors
the insertion-ordered dictionaries the Python client uses.
-/

namespace PHG

/-! ## Association lists (label-value samples of one instrument)

`upsert` models `Gauge.labels(...).set(v)` on the Python client's
insertion-ordered child dictionary: overwrite in place if the label
combination exists, otherwise append it at the end. -/

def upsert {α β : Type} [DecidableEq α] (l : List (α × β)) (k : α) (v : β) :
    List (α × β) :=
  match l with
  | [] => [(k, v)]
  | (k₀, v₀) :: t => if k₀ = k then (k, v) :: t else (k₀, v₀) :: upsert t k v

def alookup {α β : Type} [DecidableEq α] (l : List (α × β)) (k : α) : Option β :=
  match l with
  | [] => none
  | (k₀, v₀) :: t => if k₀ = k then some v₀ else alookup t k

def akeys {α β : Type} (l : List (α × β)) : List α := l.map Prod.fst

/-- Apply a list of `set` operations left to right. -/
def applyPairs {α β : Type} [DecidableEq α] (ps : List (α × β)) (l : List (α × β)) :
    List (α × β) :=
  ps.foldl (fun acc p => upsert acc p.1 p.2) l

/-- The value of the last write to key `k` in `ps`, defaulting to `d`. -/
def lastVal {α β : Type} [DecidableEq α] (ps : List (α × β)) (k : α) (d : Option β) :
    Option β :=
  ps.foldl (fun d p => if p.1 = k then some p.2 else d) d

/-! ## The Prometheus registry

One instrument per registered metric name.  An unlabeled gauge holds a single
`value` (initially `0`, as in the Python client); a labeled gauge holds its
child samples.  `render` follows `generate_latest`: a HELP line, a TYPE line
(`gauge` for every instrument of this program) and one sample line per label
combination, in registration / insertion order. -/

structure Inst where
  name : String
  help : String
  labelNames : List String
  value : ℚ
  samples : List (List String × ℚ)
deriving DecidableEq

inductive WriteOp where
  | plain (name : String) (v : ℚ)
  | labeled (name : String) (labelValues : List String) (v : ℚ)
deriving DecidableEq

/-- Effect of one `set` call on one instrument (instruments are addressed by
their registered metric name, which registration keeps unique). -/
def applyWInst (w : WriteOp) (i : Inst) : Inst :=
  match w with
  | .plain n v => if i.name = n then { i with value := v } else i
  | .labeled n lv v =>
      if i.name = n then { i with samples := upsert i.samples lv v } else i

def applyW (w : WriteOp) (r : List Inst) : List Inst := r.map (applyWInst w)

def applyWrites (ws : List WriteOp) (r : List Inst) : List Inst :=
  ws.foldl (fun r w => applyW w r) r

/-- All writes of a list applied to a single instrument. -/
def applyInstAll (ws : List WriteOp) (i : Inst) : Inst :=
  ws.foldl (fun i w => applyWInst w i) i

/-- The plain-gauge value after a write list (last matching write wins). -/
def plainFold (ws : List WriteOp) (nm : String) (v : ℚ) : ℚ :=
  ws.foldl
    (fun v w =>
      match w with
      | .plain n v₁ => if nm = n then v₁ else v
      | .labeled _ _ _ => v)
    v

/-- The labeled writes of a write list that target metric name `nm`. -/
def lblPairs (ws : List WriteOp) (nm : String) : List (List String × ℚ) :=
  ws.filterMap
    (fun w =>
      match w with
      | .plain _ _ => none
      | .labeled n lv v => if nm = n then some (lv, v) else none)

/-! ## Registration (`Gauge(...)` declarations against one registry)

The Prometheus client registry rejects a second collector exposing an
existing metric name with a duplicate-timeseries error; this contract of the
black-box client library is stated in the spec (section 4.3). -/

structure GaugeSpec where
  name : String
  help : String
  labelNames : List String
deriving DecidableEq

def registerGauge (r : List Inst) (s : GaugeSpec) : Except String (List Inst) :=
  if r.any (fun i => i.name = s.name) then
    .error ("Duplicated timeseries in CollectorRegistry: " ++ s.name)
  else
    .ok (r ++ [⟨s.name, s.help, s.labelNames, 0, []⟩])

def registerAll (specs : List GaugeSpec) (r : List Inst) : Except String (List Inst) :=
  match specs with
  | [] => .ok r
  | s :: t =>
      match registerGauge r s with
      | .ok r₁ => registerAll t r₁
      | .error e => .error e

def isOkE {ε α : Type} (x : Except ε α) : Bool :=
  match x with
  | .ok _ => true
  | .error _ => false

/-! ## Text exposition rendering (`generate_latest`) -/

/-- Decimal digits of a proper fraction `rem / den`, with fuel. -/
def fracDigits : ℕ → ℕ → ℕ → String
  | 0, _, _ => ""
  | _ + 1, 0, _ => ""
  | fuel + 1, rem, den => toString (rem * 10 / den) ++ fracDigits fuel (rem * 10 % den) den

/-- Strip trailing `0` and `.` characters, as `rstrip` with both does. -/
def rstripZeroDot (s : String) : String :=
  String.mk ((s.data.reverse.dropWhile (fun c => c == '0' || c == '.')).reverse)

/-- The client's `floatToGoString`: a sample value is stored as a Python
float and rendered from its `repr`, so integral values keep a trailing
`.0` (`4.0`, `20.0`, `0.0`); for a positive value whose decimal point sits
past index 6 the client rebuilds the text in Go-style `e+0NN` notation,
stripping trailing zeros (and a trailing dot) from the mantissa.  The
shortest round-trip `repr` of the stored double is embedded as the exact
decimal expansion of the embedded rational, which coincides with it on the
decimal readings this program handles. -/
def fmtRat (q : ℚ) : String :=
  let ipStr := toString (q.num.natAbs / q.den)
  let frac := if q.den = 1 then "0" else fracDigits 40 (q.num.natAbs % q.den) q.den
  if 0 < q ∧ 6 < ipStr.length then
    rstripZeroDot (ipStr.take 1 ++ "." ++ ipStr.drop 1 ++ frac)
      ++ "e+0" ++ toString (ipStr.length - 1)
  else (if q.num < 0 then "-" else "") ++ ipStr ++ "." ++ frac

def labelStr (names vals : List String) : String :=
  String.intercalate "," ((names.zip vals).map (fun p => p.1 ++ "=\"" ++ p.2 ++ "\""))

def renderInst (i : Inst) : List String :=
  ("# HELP " ++ i.name ++ " " ++ i.help) ::
  ("# TYPE " ++ i.name ++ " gauge") ::
  (if i.labelNames = [] then
    [i.name ++ " " ++ fmtRat i.value]
  else
    i.samples.map
      (fun s => i.name ++ "\x7b" ++ labelStr i.labelNames s.1 ++ "\x7d " ++ fmtRat s.2))

def renderLines (r : List Inst) : List String := (r.map renderInst).flatten

def renderBody (r : List Inst) : String :=
  String.intercalate "\n" (renderLines r) ++ "\n"

/-! ## metrics/prometheus.py: the module-level gauges

The 22 gauges declared at import time of
`prod_health_guardian/metrics/prometheus.py`, in source order. -/

def promSpecs : List GaugeSpec :=
  [⟨"cpu_physical_count", "Number of physical CPU cores", []⟩,
   ⟨"cpu_logical_count", "Number of logical CPU cores", []⟩,
   ⟨"cpu_frequency_current_mhz", "Current CPU frequency in MHz", []⟩,
   ⟨"cpu_frequency_min_mhz", "Minimum CPU frequency in MHz", []⟩,
   ⟨"cpu_frequency_max_mhz", "Maximum CPU frequency in MHz", []⟩,
   ⟨"cpu_percent_total", "Total CPU usage percentage", []⟩,
   ⟨"cpu_percent_per_cpu", "CPU usage percentage per core", ["core"]⟩,
   ⟨"cpu_ctx_switches_total", "Total number of context switches", []⟩,
   ⟨"cpu_interrupts_total", "Total number of interrupts", []⟩,
   ⟨"cpu_soft_interrupts_total", "Total number of soft interrupts", []⟩,
   ⟨"cpu_syscalls_total", "Total number of system calls", []⟩,
   ⟨"memory_virtual_total_bytes", "Total virtual memory in bytes", []⟩,
   ⟨"memory_virtual_available_bytes", "Available virtual memory in bytes", []⟩,
   ⟨"memory_virtual_used_bytes", "Used virtual memory in bytes", []⟩,
   ⟨"memory_virtual_free_bytes", "Free virtual memory in bytes", []⟩,
   ⟨"memory_virtual_percent", "Virtual memory usage percentage", []⟩,
   ⟨"memory_swap_total_bytes", "Total swap memory in bytes", []⟩,
   ⟨"memory_swap_used_bytes", "Used swap memory in bytes", []⟩,
   ⟨"memory_swap_free_bytes", "Free swap memory in bytes", []⟩,
   ⟨"memory_swap_percent", "Swap memory usage percentage", []⟩,
   ⟨"memory_swap_sin_total", "Total number of memory pages swapped in", []⟩,
   ⟨"memory_swap_sout_total", "Total number of memory pages swapped out", []⟩]

/-- The registry right after importing `metrics/prometheus.py`. -/
def promRegistry : List Inst := (registerAll promSpecs []).toOption.getD []

/-! ## collectors/cpu.py: CPUCollector.collect

`psutil` readings enter as an environment value; `psutil.cpu_freq()`
returning `None` is the `none` case of `freq`.  `CPUCollector.collect`
returns the nested dictionary
`\x7bcount: ..., frequency: ..., percent: ..., stats: ...\x7d`,
embedded as `CpuData`. -/

structure CpuEnv where
  physical : ℕ
  logical : ℕ
  freq : Option (ℚ × ℚ × ℚ)
  percent_total : ℚ
  per_cpu : List ℚ
  ctx_switches : ℕ
  interrupts : ℕ
  soft_interrupts : ℕ
  syscalls : ℕ

structure CpuData where
  physical : ℕ
  logical : ℕ
  freq_current : Option ℚ
  freq_min : Option ℚ
  freq_max : Option ℚ
  percent_total : ℚ
  per_cpu : List ℚ
  ctx_switches : ℕ
  interrupts : ℕ
  soft_interrupts : ℕ
  syscalls : ℕ
deriving DecidableEq

def cpuCollect (env : CpuEnv) : CpuData :=
  { physical := env.physical
    logical := env.logical
    freq_current := env.freq.map (fun f => f.1)
    freq_min := env.freq.map (fun f => f.2.1)
    freq_max := env.freq.map (fun f => f.2.2)
    percent_total := env.percent_total
    per_cpu := env.per_cpu
    ctx_switches := env.ctx_switches
    interrupts := env.interrupts
    soft_interrupts := env.soft_interrupts
    syscalls := env.syscalls }

/-! ## metrics/prometheus.py: update_cpu_metrics and get_latest_metrics -/

/-- The gauge writes `update_cpu_metrics(metrics)` performs, in source
order; the frequency gauges are only set when the value is not `None`. -/
def cpuWrites (d : CpuData) : List WriteOp :=
  [WriteOp.plain "cpu_physical_count" (d.physical : ℚ),
   WriteOp.plain "cpu_logical_count" (d.logical : ℚ)]
  ++ (match d.freq_current with
      | some v => [WriteOp.plain "cpu_frequency_current_mhz" v]
      | none => [])
  ++ (match d.freq_min with
      | some v => [WriteOp.plain "cpu_frequency_min_mhz" v]
      | none => [])
  ++ (match d.freq_max with
      | some v => [WriteOp.plain "cpu_frequency_max_mhz" v]
      | none => [])
  ++ [WriteOp.plain "cpu_percent_total" d.percent_total]
  ++ d.per_cpu.enum.map (fun p => WriteOp.labeled "cpu_percent_per_cpu" [toString p.1] p.2)
  ++ [WriteOp.plain "cpu_ctx_switches_total" (d.ctx_switches : ℚ),
      WriteOp.plain "cpu_interrupts_total" (d.interrupts : ℚ),
      WriteOp.plain "cpu_soft_interrupts_total" (d.soft_interrupts : ℚ),
      WriteOp.plain "cpu_syscalls_total" (d.syscalls : ℚ)]

def updateCpuMetrics (d : CpuData) (r : List Inst) : List Inst :=
  applyWrites (cpuWrites d) r

/-- `metrics/prometheus.py` lines 173-179: `get_latest_metrics` only calls
`generate_latest()` on the current registry state — it performs no
collection and no gauge update. -/
def promGetLatestMetrics (r : List Inst) : String := renderBody r

/-- `api/main.py` lines 114-120: the `GET /metrics` handler body on its
success path is the value returned by the imported `get_latest_metrics`. -/
def apiGetMetricsBody (r : List Inst) : String := promGetLatestMetrics r

/-! ## models/metrics.py: the pydantic models (flat field shapes) -/

structure CPUMetricsM where
  physical_cores : ℤ
  logical_cores : ℤ
  cpu_freq_current : ℚ
  cpu_freq_min : ℚ
  cpu_freq_max : ℚ
  cpu_percent : ℚ
  per_cpu_percent : List ℚ
  ctx_switches : ℤ
  interrupts : ℤ
  soft_interrupts : ℤ
  syscalls : ℤ
deriving DecidableEq

structure MemoryMetricsM where
  total : ℤ
  available : ℤ
  used : ℤ
  free : ℤ
  percent : ℚ
  swap_total : ℤ
  swap_used : ℤ
  swap_free : ℤ
  swap_percent : ℚ
  swap_in : ℤ
  swap_out : ℤ
deriving DecidableEq

structure GPUMetricsM where
  name : String
  temperature : ℚ
  power_watts : ℚ
  memory_total : ℤ
  memory_used : ℤ
  memory_free : ℤ
  gpu_utilization : ℚ
  memory_utilization : ℚ
  fan_speed : ℚ
deriving DecidableEq

structure SystemMetricsM where
  cpu : CPUMetricsM
  memory : MemoryMetricsM
  gpu : GPUMetricsM
deriving DecidableEq

/-! ## Python keyword dictionaries and pydantic validation

`Model(**data)` validates a keyword dictionary: every declared field must be
present with a type-compatible value (extra keys are ignored, as in pydantic
v2's default config).  The models of this program declare no value
constraints — only field types. -/

inductive PyVal where
  | pyInt (n : ℤ)
  | pyFloat (q : ℚ)
  | pyStr (s : String)
  | pyList (xs : List PyVal)
  | pyNone
  | pyDict (fields : List (String × PyVal))

def pyLookup (kw : List (String × PyVal)) (k : String) : Option PyVal :=
  match kw with
  | [] => none
  | (k₀, v₀) :: t => if k₀ = k then some v₀ else pyLookup t k

/-- Lax coercion to an `int` field: accepts ints and integral floats. -/
def asInt (v : PyVal) : Option ℤ :=
  match v with
  | .pyInt n => some n
  | .pyFloat q => if q.den = 1 then some q.num else none
  | _ => none

/-- Lax coercion to a `float` field: accepts floats and ints. -/
def asFloat (v : PyVal) : Option ℚ :=
  match v with
  | .pyFloat q => some q
  | .pyInt n => some (n : ℚ)
  | _ => none

def asFloats (xs : List PyVal) : Option (List ℚ) :=
  match xs with
  | [] => some []
  | v :: t =>
      match asFloat v, asFloats t with
      | some q, some qs => some (q :: qs)
      | _, _ => none

def reqInt (kw : List (String × PyVal)) (k : String) : Option ℤ :=
  (pyLookup kw k).bind asInt

def reqFloat (kw : List (String × PyVal)) (k : String) : Option ℚ :=
  (pyLookup kw k).bind asFloat

def reqFloatList (kw : List (String × PyVal)) (k : String) : Option (List ℚ) :=
  (pyLookup kw k).bind
    (fun v =>
      match v with
      | .pyList xs => asFloats xs
      | _ => none)

/-- `CPUMetrics(**kw)`: requires the 11 flat fields of the model, each with
a type-compatible value; no value-range validation is declared. -/
def validateCPUMetrics (kw : List (String × PyVal)) : Except String CPUMetricsM :=
  match reqInt kw "physical_cores", reqInt kw "logical_cores",
        reqFloat kw "cpu_freq_current", reqFloat kw "cpu_freq_min",
        reqFloat kw "cpu_freq_max", reqFloat kw "cpu_percent",
        reqFloatList kw "per_cpu_percent", reqInt kw "ctx_switches",
        reqInt kw "interrupts", reqInt kw "soft_interrupts",
        reqInt kw "syscalls" with
  | some a, some b, some c, some d, some e, some f, some g, some h,
    some i, some j, some k =>
      .ok ⟨a, b, c, d, e, f, g, h, i, j, k⟩
  | _, _, _, _, _, _, _, _, _, _, _ =>
      .error "ValidationError: CPUMetrics"

/-- `MemoryMetrics(**kw)`: requires the 11 flat fields of the model. -/
def validateMemoryMetrics (kw : List (String × PyVal)) : Except String MemoryMetricsM :=
  match reqInt kw "total", reqInt kw "available", reqInt kw "used",
        reqInt kw "free", reqFloat kw "percent", reqInt kw "swap_total",
        reqInt kw "swap_used", reqInt kw "swap_free", reqFloat kw "swap_percent",
        reqInt kw "swap_in", reqInt kw "swap_out" with
  | some a, some b, some c, some d, some e, some f, some g, some h,
    some i, some j, some k =>
      .ok ⟨a, b, c, d, e, f, g, h, i, j, k⟩
  | _, _, _, _, _, _, _, _, _, _, _ =>
      .error "ValidationError: MemoryMetrics"

def optFloatVal (o : Option ℚ) : PyVal :=
  match o with
  | some q => .pyFloat q
  | none => .pyNone

/-- The keyword dictionary `CPUCollector.collect` hands to
`CPUMetrics(**cpu_data)` — its keys are the nested reading's keys. -/
def pyOfCpuData (d : CpuData) : List (String × PyVal) :=
  [("count", .pyDict [("physical", .pyInt (d.physical : ℤ)),
                      ("logical", .pyInt (d.logical : ℤ))]),
   ("frequency", .pyDict [("current", optFloatVal d.freq_current),
                          ("min", optFloatVal d.freq_min),
                          ("max", optFloatVal d.freq_max)]),
   ("percent", .pyDict [("total", .pyFloat d.percent_total),
                        ("per_cpu", .pyList (d.per_cpu.map PyVal.pyFloat))]),
   ("stats", .pyDict [("ctx_switches", .pyInt (d.ctx_switches : ℤ)),
                      ("interrupts", .pyInt (d.interrupts : ℤ)),
                      ("soft_interrupts", .pyInt (d.soft_interrupts : ℤ)),
                      ("syscalls", .pyInt (d.syscalls : ℤ))])]

/-- A flat model value rendered back as a keyword dictionary, with each
field at its declared type. -/
def kwargsOfCPUMetrics (m : CPUMetricsM) : List (String × PyVal) :=
  [("physical_cores", .pyInt m.physical_cores),
   ("logical_cores", .pyInt m.logical_cores),
   ("cpu_freq_current", .pyFloat m.cpu_freq_current),
   ("cpu_freq_min", .pyFloat m.cpu_freq_min),
   ("cpu_freq_max", .pyFloat m.cpu_freq_max),
   ("cpu_percent", .pyFloat m.cpu_percent),
   ("per_cpu_percent", .pyList (m.per_cpu_percent.map PyVal.pyFloat)),
   ("ctx_switches", .pyInt m.ctx_switches),
   ("interrupts", .pyInt m.interrupts),
   ("soft_interrupts", .pyInt m.soft_interrupts),
   ("syscalls", .pyInt m.syscalls)]

/-! ## collectors/memory.py: MemoryCollector.collect

`psutil.virtual_memory()` is read unconditionally; `psutil.swap_memory()`
is read inside a try/except, and on a raised read-error the collector
substitutes an all-zero swap block without propagating the error. -/

structure VirtualMem where
  total : ℤ
  available : ℤ
  used : ℤ
  free : ℤ
  percent : ℚ

structure SwapMem where
  total : ℤ
  used : ℤ
  free : ℤ
  percent : ℚ
  sin : ℤ
  sout : ℤ

/-- The flat dictionary `MemoryCollector.collect` returns. -/
structure MemData where
  total : ℤ
  available : ℤ
  used : ℤ
  free : ℤ
  percent : ℚ
  swap_total : ℤ
  swap_used : ℤ
  swap_free : ℤ
  swap_percent : ℚ
  swap_in : ℤ
  swap_out : ℤ
deriving DecidableEq

def memoryCollect (virtual : VirtualMem) (swap : Except String SwapMem) : MemData :=
  match swap with
  | .ok s =>
      { total := virtual.total, available := virtual.available,
        used := virtual.used, free := virtual.free, percent := virtual.percent,
        swap_total := s.total, swap_used := s.used, swap_free := s.free,
        swap_percent := s.percent, swap_in := s.sin, swap_out := s.sout }
  | .error _ =>
      { total := virtual.total, available := virtual.available,
        used := virtual.used, free := virtual.free, percent := virtual.percent,
        swap_total := 0, swap_used := 0, swap_free := 0,
        swap_percent := 0, swap_in := 0, swap_out := 0 }

def pyOfMemData (m : MemData) : List (String × PyVal) :=
  [("total", .pyInt m.total),
   ("available", .pyInt m.available),
   ("used", .pyInt m.used),
   ("free", .pyInt m.free),
   ("percent", .pyFloat m.percent),
   ("swap_total", .pyInt m.swap_total),
   ("swap_used", .pyInt m.swap_used),
   ("swap_free", .pyInt m.swap_free),
   ("swap_percent", .pyFloat m.swap_percent),
   ("swap_in", .pyInt m.swap_in),
   ("swap_out", .pyInt m.swap_out)]

/-! ## collectors/gpu.py: GPUCollector

Driver initialization happens once at construction: if the pynvml import is
missing, or `nvmlInit` / `nvmlDeviceGetCount` raise, the collector marks
itself unavailable (`has_nvidia = false`, `device_count` keeps its pre-set
`0` for the raising case).  `collect_metrics` returns the zero reading when
unavailable; otherwise it reports the construction-time device count and
visits each index, skipping a device whose handle lookup or field reads
raise, and substituting `0` for an unsupported fan-speed read. -/

structure GPUState where
  has_nvidia : Bool
  device_count : ℕ
deriving DecidableEq

/-- `GPUCollector.__init__`: `hasLib` is whether the pynvml import
succeeded; `initRes` is the result of `nvmlInit`+`nvmlDeviceGetCount`. -/
def gpuInit (hasLib : Bool) (initRes : Except Unit ℕ) : GPUState :=
  if hasLib then
    match initRes with
    | .ok n => ⟨true, n⟩
    | .error _ => ⟨false, 0⟩
  else ⟨false, 0⟩

structure GpuRaw where
  name : String
  temperature : ℚ
  power_usage : ℚ
  memory_total : ℤ
  memory_used : ℤ
  memory_free : ℤ
  utilization : ℚ
  memory_utilization : ℚ
deriving DecidableEq

/-- Per-device driver behavior: whether the handle lookup succeeds, the
result of the grouped field reads, and the fan-speed read. -/
structure DeviceEnv where
  handleOk : Bool
  fields : Except Unit GpuRaw
  fan : Except Unit ℚ

structure DeviceMetrics where
  name : String
  temperature : ℚ
  power_usage : ℚ
  memory_total : ℤ
  memory_used : ℤ
  memory_free : ℤ
  utilization : ℚ
  memory_utilization : ℚ
  fan_speed : ℚ
deriving DecidableEq

structure GpuData where
  device_count : ℕ
  devices : List DeviceMetrics
deriving DecidableEq

def collectDevice (d : DeviceEnv) : Option DeviceMetrics :=
  if d.handleOk = false then none
  else
    match d.fields with
    | .error _ => none
    | .ok f =>
        some { name := f.name, temperature := f.temperature,
               power_usage := f.power_usage, memory_total := f.memory_total,
               memory_used := f.memory_used, memory_free := f.memory_free,
               utilization := f.utilization,
               memory_utilization := f.memory_utilization,
               fan_speed := match d.fan with | .ok q => q | .error _ => 0 }

def gpuCollectMetrics (st : GPUState) (env : ℕ → DeviceEnv) : GpuData :=
  if st.has_nvidia = false then ⟨0, []⟩
  else ⟨st.device_count, (List.range st.device_count).filterMap (fun i => collectDevice (env i))⟩

/-! ## api/main.py: GET /metrics/json/collector-name

The handler collects only for the known names `cpu` and `memory`, feeding
the raw collector dictionary to the matching model; any other name raises a
404 `HTTPException` whose detail names the collector and nothing else; a
non-HTTP exception in a known branch becomes a 500. -/

inductive ApiResponse where
  | okCpu (m : CPUMetricsM)
  | okMemory (m : MemoryMetricsM)
  | notFound (detail : String)
  | serverError (detail : String)
deriving DecidableEq

def getCollectorMetrics (c : String) (cpuData : CpuData) (memData : MemData) :
    ApiResponse :=
  if c = "cpu" then
    match validateCPUMetrics (pyOfCpuData cpuData) with
    | .ok m => .okCpu m
    | .error _ => .serverError ("Failed to collect metrics from cpu")
  else if c = "memory" then
    match validateMemoryMetrics (pyOfMemData memData) with
    | .ok m => .okMemory m
    | .error _ => .serverError ("Failed to collect metrics from memory")
  else .notFound ("Collector \x27" ++ c ++ "\x27 not found")

/-- Substring test used to state what a detail message does or does not
mention. -/
def containsSub (s pat : String) : Bool :=
  s.data.tails.any (fun t => pat.data.isPrefixOf t)

/-! ## metrics/collectors.py: MetricsCollector

`_register_metrics` declares all 31 gauges once, at construction; the help
texts repeat those of the prometheus module.  `update_prometheus_metrics`
overwrites every gauge from a validated `SystemMetrics`, labeling per-core
samples by the core ordinal and every GPU sample with
`gpu_id="0"` plus the device name (it never sets `gpu_device_count`). -/

def gpuLabeledSpecs : List GaugeSpec :=
  [⟨"gpu_temperature_celsius", "GPU temperature in Celsius", ["gpu_id", "name"]⟩,
   ⟨"gpu_power_watts", "GPU power usage in Watts", ["gpu_id", "name"]⟩,
   ⟨"gpu_memory_total_bytes", "Total GPU memory in bytes", ["gpu_id", "name"]⟩,
   ⟨"gpu_memory_used_bytes", "Used GPU memory in bytes", ["gpu_id", "name"]⟩,
   ⟨"gpu_memory_free_bytes", "Free GPU memory in bytes", ["gpu_id", "name"]⟩,
   ⟨"gpu_utilization_percent", "GPU utilization percentage", ["gpu_id", "name"]⟩,
   ⟨"gpu_memory_utilization_percent", "GPU memory utilization percentage",
    ["gpu_id", "name"]⟩,
   ⟨"gpu_fan_speed_percent", "GPU fan speed percentage", ["gpu_id", "name"]⟩]

def metricSpecs : List GaugeSpec :=
  promSpecs
  ++ [⟨"gpu_device_count", "Number of NVIDIA GPUs available", []⟩]
  ++ gpuLabeledSpecs

/-- The registry `MetricsCollector.__init__` builds via `_register_metrics`. -/
def collectorsRegistry : List Inst := (registerAll metricSpecs []).toOption.getD []

/-- The gauge writes of `update_prometheus_metrics(metrics)`, in source
order. -/
def writesOfSystem (m : SystemMetricsM) : List WriteOp :=
  [WriteOp.plain "cpu_physical_count" (m.cpu.physical_cores : ℚ),
   WriteOp.plain "cpu_logical_count" (m.cpu.logical_cores : ℚ),
   WriteOp.plain "cpu_frequency_current_mhz" m.cpu.cpu_freq_current,
   WriteOp.plain "cpu_frequency_min_mhz" m.cpu.cpu_freq_min,
   WriteOp.plain "cpu_frequency_max_mhz" m.cpu.cpu_freq_max,
   WriteOp.plain "cpu_percent_total" m.cpu.cpu_percent]
  ++ m.cpu.per_cpu_percent.enum.map
      (fun p => WriteOp.labeled "cpu_percent_per_cpu" [toString p.1] p.2)
  ++ [WriteOp.plain "cpu_ctx_switches_total" (m.cpu.ctx_switches : ℚ),
      WriteOp.plain "cpu_interrupts_total" (m.cpu.interrupts : ℚ),
      WriteOp.plain "cpu_soft_interrupts_total" (m.cpu.soft_interrupts : ℚ),
      WriteOp.plain "cpu_syscalls_total" (m.cpu.syscalls : ℚ),
      WriteOp.plain "memory_virtual_total_bytes" (m.memory.total : ℚ),
      WriteOp.plain "memory_virtual_available_bytes" (m.memory.available : ℚ),
      WriteOp.plain "memory_virtual_used_bytes" (m.memory.used : ℚ),
      WriteOp.plain "memory_virtual_free_bytes" (m.memory.free : ℚ),
      WriteOp.plain "memory_virtual_percent" m.memory.percent,
      WriteOp.plain "memory_swap_total_bytes" (m.memory.swap_total : ℚ),
      WriteOp.plain "memory_swap_used_bytes" (m.memory.swap_used : ℚ),
      WriteOp.plain "memory_swap_free_bytes" (m.memory.swap_free : ℚ),
      WriteOp.plain "memory_swap_percent" m.memory.swap_percent,
      WriteOp.plain "memory_swap_sin_total" (m.memory.swap_in : ℚ),
      WriteOp.plain "memory_swap_sout_total" (m.memory.swap_out : ℚ),
      WriteOp.labeled "gpu_temperature_celsius" ["0", m.gpu.name] m.gpu.temperature,
      WriteOp.labeled "gpu_power_watts" ["0", m.gpu.name] m.gpu.power_watts,
      WriteOp.labeled "gpu_memory_total_bytes" ["0", m.gpu.name] (m.gpu.memory_total : ℚ),
      WriteOp.labeled "gpu_memory_used_bytes" ["0", m.gpu.name] (m.gpu.memory_used : ℚ),
      WriteOp.labeled "gpu_memory_free_bytes" ["0", m.gpu.name] (m.gpu.memory_free : ℚ),
      WriteOp.labeled "gpu_utilization_percent" ["0", m.gpu.name] m.gpu.gpu_utilization,
      WriteOp.labeled "gpu_memory_utilization_percent" ["0", m.gpu.name]
        m.gpu.memory_utilization,
      WriteOp.labeled "gpu_fan_speed_percent" ["0", m.gpu.name] m.gpu.fan_speed]

def updatePrometheusMetrics (m : SystemMetricsM) (r : List Inst) : List Inst :=
  applyWrites (writesOfSystem m) r

/-- `MetricsCollector.get_prometheus_metrics`: `generate_latest()` on the
registry. -/
def getPrometheusMetrics (r : List Inst) : String := renderBody r

/-- A registry is well formed when no instrument holds two samples for the
same label combination; registration creates instruments with no samples,
and writes never duplicate a label combination, so every reachable registry
is well formed. -/
def WFRegistry (r : List Inst) : Prop :=
  ∀ i ∈ r, (akeys i.samples).Nodup

/-! ## Concrete scenario inputs -/

/-- The CPU reading of the spec's render scenario. -/
def scenarioReading : CpuData :=
  { physical := 4, logical := 8,
    freq_current := some 2400, freq_min := some 2200, freq_max := some 3200,
    percent_total := (51 : ℚ) / 2, per_cpu := [20, 30, 25, 27],
    ctx_switches := 1000, interrupts := 500, soft_interrupts := 200,
    syscalls := 300 }

/-- An earlier CPU reading with a different physical-core count, used to
exhibit a stale registry. -/
def earlierReading : CpuData :=
  { physical := 7, logical := 14,
    freq_current := some 2000, freq_min := some 1800, freq_max := some 2600,
    percent_total := 10, per_cpu := [10, 10],
    ctx_switches := 5, interrupts := 5, soft_interrupts := 5, syscalls := 5 }

/-- The registry as left behind by an update from the earlier reading. -/
def staleRegistry : List Inst := updateCpuMetrics earlierReading promRegistry

/-- A psutil environment where `cpu_freq()` returns `None`. -/
def noFreqEnv : CpuEnv :=
  { physical := 4, logical := 8, freq := none,
    percent_total := (51 : ℚ) / 2, per_cpu := [20, 30, 25, 27],
    ctx_switches := 1000, interrupts := 500, soft_interrupts := 200,
    syscalls := 300 }

/-- A keyword dictionary whose every field has the declared type but whose
values violate the claimed invariants: fewer logical than physical cores and
percent fields above 100. -/
def outOfRangeCpuKwargs : List (String × PyVal) :=
  [("physical_cores", .pyInt 8),
   ("logical_cores", .pyInt 4),
   ("cpu_freq_current", .pyFloat 2400),
   ("cpu_freq_min", .pyFloat 2200),
   ("cpu_freq_max", .pyFloat 3200),
   ("cpu_percent", .pyFloat 150),
   ("per_cpu_percent", .pyList [.pyFloat 200, .pyFloat 30]),
   ("ctx_switches", .pyInt 1000),
   ("interrupts", .pyInt 500),
   ("soft_interrupts", .pyInt 200),
   ("syscalls", .pyInt 300)]

/-- The model value `outOfRangeCpuKwargs` validates to. -/
def outOfRangeCpuModel : CPUMetricsM :=
  { physical_cores := 8, logical_cores := 4,
    cpu_freq_current := 2400, cpu_freq_min := 2200, cpu_freq_max := 3200,
    cpu_percent := 150, per_cpu_percent := [200, 30],
    ctx_switches := 1000, interrupts := 500, soft_interrupts := 200,
    syscalls := 300 }

/-- A three-device driver environment whose middle device fails its handle
lookup and is skipped. -/
def skipOneDeviceEnv : ℕ → DeviceEnv :=
  fun i =>
    if i = 1 then ⟨false, .error (), .error ()⟩
    else
      ⟨true,
       .ok ⟨"NVIDIA GeForce RTX 3080", 65, 220, 10000, 4000, 6000, 85, 40⟩,
       .ok 75⟩

/-- A concrete snapshot for the render-determinism scenario. -/
def sampleSystem : SystemMetricsM :=
  { cpu :=
      { physical_cores := 4, logical_cores := 8,
        cpu_freq_current := 2400, cpu_freq_min := 2200, cpu_freq_max := 3200,
        cpu_percent := (51 : ℚ) / 2, per_cpu_percent := [20, 30, 25, 27],
        ctx_switches := 1000, interrupts := 500, soft_interrupts := 200,
        syscalls := 300 },
    memory :=
      { total := 16000000000, available := 8000000000, used := 8000000000,
        free := 8000000000, percent := 50, swap_total := 8000000000,
        swap_used := 1000000000, swap_free := 7000000000,
        swap_percent := (25 : ℚ) / 2, swap_in := 100, swap_out := 50 },
    gpu :=
      { name := "NVIDIA GeForce RTX 3080", temperature := 65,
        power_watts := (441 : ℚ) / 2, memory_total := 10737418240,
        memory_used := 4294967296, memory_free := 6442450944,
        gpu_utilization := (171 : ℚ) / 2, memory_utilization := 40,
        fan_speed := 75 } }

/-! # Theorems

## Association-list lemmas -/

theorem akeys_nil {α β : Type} : akeys ([] : List (α × β)) = [] := rfl

theorem akeys_cons {α β : Type} (p : α × β) (t : List (α × β)) :
    akeys (p :: t) = p.1 :: akeys t := rfl

theorem upsert_cons_eq {α β : Type} [DecidableEq α] {k₀ k : α} (v₀ : β)
    (t : List (α × β)) (v : β) (h : k₀ = k) :
    upsert ((k₀, v₀) :: t) k v = (k, v) :: t := by
  simp [upsert, h]

theorem upsert_cons_ne {α β : Type} [DecidableEq α] {k₀ k : α} (v₀ : β)
    (t : List (α × β)) (v : β) (h : ¬ k₀ = k) :
    upsert ((k₀, v₀) :: t) k v = (k₀, v₀) :: upsert t k v := by
  simp [upsert, h]

theorem akeys_upsert_of_mem {α β : Type} [DecidableEq α] {l : List (α × β)}
    {k : α} (v : β) (h : k ∈ akeys l) : akeys (upsert l k v) = akeys l := by
  induction l with
  | nil => simp [akeys_nil] at h
  | cons p t ih =>
      obtain ⟨k₀, v₀⟩ := p
      by_cases hk : k₀ = k
      · rw [upsert_cons_eq v₀ t v hk, akeys_cons, akeys_cons, hk]
      · rw [upsert_cons_ne v₀ t v hk, akeys_cons, akeys_cons]
        rw [akeys_cons] at h
        rcases List.mem_cons.mp h with h | h
        · exact absurd h.symm hk
        · rw [ih h]

theorem akeys_upsert_of_not_mem {α β : Type} [DecidableEq α] {l : List (α × β)}
    {k : α} (v : β) (h : k ∉ akeys l) : akeys (upsert l k v) = akeys l ++ [k] := by
  induction l with
  | nil => simp [upsert, akeys_nil, akeys_cons]
  | cons p t ih =>
      obtain ⟨k₀, v₀⟩ := p
      rw [akeys_cons] at h
      have hk : ¬ k₀ = k := fun he => h (by rw [he]; exact List.mem_cons_self _ _)
      have ht : k ∉ akeys t := fun hc => h (List.mem_cons_of_mem _ hc)
      rw [upsert_cons_ne v₀ t v hk, akeys_cons, akeys_cons, ih ht]
      rfl

theorem mem_akeys_upsert_self {α β : Type} [DecidableEq α] (l : List (α × β))
    (k : α) (v : β) : k ∈ akeys (upsert l k v) := by
  by_cases hm : k ∈ akeys l
  · rw [akeys_upsert_of_mem v hm]; exact hm
  · rw [akeys_upsert_of_not_mem v hm]
    exact List.mem_append_right _ (List.mem_singleton.mpr rfl)

theorem mem_akeys_upsert_of_mem {α β : Type} [DecidableEq α] {l : List (α × β)}
    {k₁ : α} (k : α) (v : β) (h : k₁ ∈ akeys l) : k₁ ∈ akeys (upsert l k v) := by
  by_cases hm : k ∈ akeys l
  · rw [akeys_upsert_of_mem v hm]; exact h
  · rw [akeys_upsert_of_not_mem v hm]
    exact List.mem_append_left _ h

theorem alookup_upsert {α β : Type} [DecidableEq α] (l : List (α × β))
    (k : α) (v : β) (k₁ : α) :
    alookup (upsert l k v) k₁ = if k₁ = k then some v else alookup l k₁ := by
  induction l with
  | nil =>
      by_cases h : k₁ = k
      · simp [upsert, alookup, h]
      · have h' : ¬ k = k₁ := fun he => h he.symm
        simp [upsert, alookup, h, h']
  | cons p t ih =>
      obtain ⟨k₀, v₀⟩ := p
      by_cases hk : k₀ = k
      · subst hk
        by_cases h : k₁ = k₀
        · subst h
          simp [upsert, alookup]
        · have h' : ¬ k₀ = k₁ := fun he => h he.symm
          simp [upsert, alookup, h, h']
      · rw [upsert_cons_ne v₀ t v hk]
        by_cases h : k₀ = k₁
        · subst h
          simp [alookup, hk]
        · simp [alookup, h, ih]

theorem nodup_akeys_upsert {α β : Type} [DecidableEq α] {l : List (α × β)}
    (k : α) (v : β) (h : (akeys l).Nodup) : (akeys (upsert l k v)).Nodup := by
  by_cases hm : k ∈ akeys l
  · rw [akeys_upsert_of_mem v hm]; exact h
  · rw [akeys_upsert_of_not_mem v hm]
    simp [List.nodup_append, h]
    exact hm

theorem alookup_eq_none_of_not_mem {α β : Type} [DecidableEq α]
    {l : List (α × β)} {k : α} (h : k ∉ akeys l) : alookup l k = none := by
  induction l with
  | nil => rfl
  | cons p t ih =>
      obtain ⟨k₀, v₀⟩ := p
      rw [akeys_cons] at h
      have hk : ¬ k₀ = k := fun he => h (by rw [he]; exact List.mem_cons_self _ _)
      have ht : k ∉ akeys t := fun hc => h (List.mem_cons_of_mem _ hc)
      simp [alookup, hk, ih ht]

theorem alist_ext {α β : Type} [DecidableEq α] {l₁ l₂ : List (α × β)}
    (h₁ : (akeys l₁).Nodup) (hk : akeys l₁ = akeys l₂)
    (hv : ∀ k, alookup l₁ k = alookup l₂ k) : l₁ = l₂ := by
  induction l₁ generalizing l₂ with
  | nil =>
      cases l₂ with
      | nil => rfl
      | cons p t => rw [akeys_nil, akeys_cons] at hk; exact absurd hk (by simp)
  | cons p t ih =>
      obtain ⟨k₀, v₀⟩ := p
      cases l₂ with
      | nil => rw [akeys_nil, akeys_cons] at hk; exact absurd hk (by simp)
      | cons q t₂ =>
          obtain ⟨k₁, v₁⟩ := q
          rw [akeys_cons, akeys_cons] at hk
          have hkk : k₀ = k₁ := by
            have := congrArg (fun l => l.head?) hk
            simpa using this
          subst hkk
          have htk : akeys t = akeys t₂ := by
            have := congrArg (fun l => l.tail) hk
            simpa using this
          have hvv : v₀ = v₁ := by
            have := hv k₀
            simpa [alookup] using this
          subst hvv
          rw [akeys_cons] at h₁
          have hnodup : (akeys t).Nodup := h₁.of_cons
          have hnot : k₀ ∉ akeys t := (List.nodup_cons.mp h₁).1
          have hnot₂ : k₀ ∉ akeys t₂ := htk ▸ hnot
          have hvt : ∀ k, alookup t k = alookup t₂ k := by
            intro k
            by_cases hkc : k₀ = k
            · subst hkc
              rw [alookup_eq_none_of_not_mem hnot, alookup_eq_none_of_not_mem hnot₂]
            · have := hv k
              simpa [alookup, hkc] using this
          rw [ih hnodup htk hvt]

theorem applyPairs_nil {α β : Type} [DecidableEq α] (l : List (α × β)) :
    applyPairs [] l = l := rfl

theorem applyPairs_cons {α β : Type} [DecidableEq α] (p : α × β)
    (ps : List (α × β)) (l : List (α × β)) :
    applyPairs (p :: ps) l = applyPairs ps (upsert l p.1 p.2) := rfl

theorem mem_akeys_applyPairs {α β : Type} [DecidableEq α]
    {ps : List (α × β)} {l : List (α × β)} {k : α} (h : k ∈ akeys l) :
    k ∈ akeys (applyPairs ps l) := by
  induction ps generalizing l with
  | nil => exact h
  | cons p ps ih => exact ih (mem_akeys_upsert_of_mem p.1 p.2 h)

theorem mem_akeys_applyPairs_write {α β : Type} [DecidableEq α]
    {ps : List (α × β)} {p : α × β} (l : List (α × β)) (h : p ∈ ps) :
    p.1 ∈ akeys (applyPairs ps l) := by
  induction ps generalizing l with
  | nil => exact absurd h (List.not_mem_nil p)
  | cons q ps ih =>
      rcases List.mem_cons.mp h with he | hm
      · subst he
        rw [applyPairs_cons]
        exact mem_akeys_applyPairs (mem_akeys_upsert_self l p.1 p.2)
      · rw [applyPairs_cons]
        exact ih _ hm

theorem akeys_applyPairs_of_all_mem {α β : Type} [DecidableEq α]
    {ps : List (α × β)} {l : List (α × β)}
    (h : ∀ p ∈ ps, p.1 ∈ akeys l) : akeys (applyPairs ps l) = akeys l := by
  induction ps generalizing l with
  | nil => rfl
  | cons p ps ih =>
      rw [applyPairs_cons]
      have hp : p.1 ∈ akeys l := h p (List.mem_cons_self _ _)
      rw [ih (fun q hq => mem_akeys_upsert_of_mem p.1 p.2 (h q (List.mem_cons_of_mem _ hq))),
          akeys_upsert_of_mem p.2 hp]

theorem nodup_akeys_applyPairs {α β : Type} [DecidableEq α]
    {ps : List (α × β)} {l : List (α × β)} (h : (akeys l).Nodup) :
    (akeys (applyPairs ps l)).Nodup := by
  induction ps generalizing l with
  | nil => exact h
  | cons p ps ih => exact ih (nodup_akeys_upsert p.1 p.2 h)

theorem lastVal_cons {α β : Type} [DecidableEq α] (p : α × β)
    (ps : List (α × β)) (k : α) (d : Option β) :
    lastVal (p :: ps) k d = lastVal ps k (if p.1 = k then some p.2 else d) := rfl

theorem alookup_applyPairs {α β : Type} [DecidableEq α] (ps : List (α × β))
    (l : List (α × β)) (k : α) :
    alookup (applyPairs ps l) k = lastVal ps k (alookup l k) := by
  induction ps generalizing l with
  | nil => rfl
  | cons p ps ih =>
      rw [applyPairs_cons, ih, lastVal_cons, alookup_upsert]
      by_cases h : p.1 = k
      · simp [h]
      · have h' : ¬ k = p.1 := fun he => h he.symm
        simp [h, h']

theorem lastVal_cases {α β : Type} [DecidableEq α] (ps : List (α × β)) (k : α) :
    (∃ u, ∀ d, lastVal ps k d = some u) ∨ (∀ d, lastVal ps k d = d) := by
  induction ps with
  | nil => exact Or.inr (fun d => rfl)
  | cons p ps ih =>
      by_cases h : p.1 = k
      · rcases ih with ⟨u, hu⟩ | hr
        · exact Or.inl ⟨u, fun d => by rw [lastVal_cons, hu]⟩
        · exact Or.inl ⟨p.2, fun d => by rw [lastVal_cons, if_pos h, hr]⟩
      · rcases ih with ⟨u, hu⟩ | hr
        · exact Or.inl ⟨u, fun d => by rw [lastVal_cons, if_neg h, hu]⟩
        · exact Or.inr (fun d => by rw [lastVal_cons, if_neg h, hr])

theorem lastVal_idem {α β : Type} [DecidableEq α] (ps : List (α × β)) (k : α)
    (d : Option β) : lastVal ps k (lastVal ps k d) = lastVal ps k d := by
  rcases lastVal_cases ps k with ⟨u, hu⟩ | hr
  · rw [hu, hu]
  · rw [hr, hr]

theorem applyPairs_idem {α β : Type} [DecidableEq α] (ps : List (α × β))
    (l : List (α × β)) (h : (akeys l).Nodup) :
    applyPairs ps (applyPairs ps l) = applyPairs ps l := by
  apply alist_ext
  · exact nodup_akeys_applyPairs (nodup_akeys_applyPairs h)
  · exact akeys_applyPairs_of_all_mem (fun p hp => mem_akeys_applyPairs_write l hp)
  · intro k
    rw [alookup_applyPairs, alookup_applyPairs, lastVal_idem]

/-! ## Registry write lemmas -/

theorem applyWrites_nil (r : List Inst) : applyWrites [] r = r := rfl

theorem applyWrites_cons (w : WriteOp) (ws : List WriteOp) (r : List Inst) :
    applyWrites (w :: ws) r = applyWrites ws (applyW w r) := rfl

theorem applyInstAll_cons (w : WriteOp) (ws : List WriteOp) (i : Inst) :
    applyInstAll (w :: ws) i = applyInstAll ws (applyWInst w i) := rfl

theorem applyWrites_map (ws : List WriteOp) (r : List Inst) :
    applyWrites ws r = r.map (applyInstAll ws) := by
  induction ws generalizing r with
  | nil =>
      rw [applyWrites_nil]
      exact (List.map_id' r).symm
  | cons w ws ih =>
      rw [applyWrites_cons, ih, applyW, List.map_map]
      rfl

theorem plainFold_nil (nm : String) (v : ℚ) : plainFold [] nm v = v := rfl

theorem plainFold_cons_plain (n : String) (v₁ : ℚ) (ws : List WriteOp)
    (nm : String) (v : ℚ) :
    plainFold (WriteOp.plain n v₁ :: ws) nm v
      = plainFold ws nm (if nm = n then v₁ else v) := rfl

theorem plainFold_cons_labeled (n : String) (lv : List String) (v₁ : ℚ)
    (ws : List WriteOp) (nm : String) (v : ℚ) :
    plainFold (WriteOp.labeled n lv v₁ :: ws) nm v = plainFold ws nm v := rfl

theorem lblPairs_cons_plain (n : String) (v₁ : ℚ) (ws : List WriteOp)
    (nm : String) :
    lblPairs (WriteOp.plain n v₁ :: ws) nm = lblPairs ws nm := by
  simp [lblPairs]

theorem lblPairs_cons_labeled (n : String) (lv : List String) (v₁ : ℚ)
    (ws : List WriteOp) (nm : String) :
    lblPairs (WriteOp.labeled n lv v₁ :: ws) nm
      = if nm = n then (lv, v₁) :: lblPairs ws nm else lblPairs ws nm := by
  by_cases h : nm = n <;> simp [lblPairs, h]

theorem applyInstAll_char (ws : List WriteOp) (i : Inst) :
    applyInstAll ws i
      = ⟨i.name, i.help, i.labelNames, plainFold ws i.name i.value,
         applyPairs (lblPairs ws i.name) i.samples⟩ := by
  induction ws generalizing i with
  | nil => rfl
  | cons w ws ih =>
      rw [applyInstAll_cons, ih]
      cases w with
      | plain n v =>
          by_cases h : i.name = n
          · rw [plainFold_cons_plain, lblPairs_cons_plain, if_pos h]
            simp [applyWInst, h]
          · rw [plainFold_cons_plain, lblPairs_cons_plain, if_neg h]
            simp [applyWInst, h]
      | labeled n lv v =>
          by_cases h : i.name = n
          · rw [plainFold_cons_labeled, lblPairs_cons_labeled, if_pos h]
            simp [applyWInst, h, applyPairs_cons]
          · rw [plainFold_cons_labeled, lblPairs_cons_labeled, if_neg h]
            simp [applyWInst, h]

theorem plainFold_cases (ws : List WriteOp) (nm : String) :
    (∃ u, ∀ v, plainFold ws nm v = u) ∨ (∀ v, plainFold ws nm v = v) := by
  induction ws with
  | nil => exact Or.inr (fun v => rfl)
  | cons w ws ih =>
      cases w with
      | plain n v₁ =>
          by_cases h : nm = n
          · rcases ih with ⟨u, hu⟩ | hr
            · exact Or.inl ⟨u, fun v => by rw [plainFold_cons_plain, hu]⟩
            · exact Or.inl ⟨v₁, fun v => by
                rw [plainFold_cons_plain, if_pos h, hr]⟩
          · rcases ih with ⟨u, hu⟩ | hr
            · exact Or.inl ⟨u, fun v => by rw [plainFold_cons_plain, hu]⟩
            · exact Or.inr (fun v => by
                rw [plainFold_cons_plain, if_neg h, hr])
      | labeled n lv v₁ =>
          rcases ih with ⟨u, hu⟩ | hr
          · exact Or.inl ⟨u, fun v => by rw [plainFold_cons_labeled, hu]⟩
          · exact Or.inr (fun v => by rw [plainFold_cons_labeled, hr])

theorem plainFold_idem (ws : List WriteOp) (nm : String) (v : ℚ) :
    plainFold ws nm (plainFold ws nm v) = plainFold ws nm v := by
  rcases plainFold_cases ws nm with ⟨u, hu⟩ | hr
  · rw [hu, hu]
  · rw [hr, hr]

theorem applyInstAll_idem (ws : List WriteOp) (i : Inst)
    (h : (akeys i.samples).Nodup) :
    applyInstAll ws (applyInstAll ws i) = applyInstAll ws i := by
  rw [applyInstAll_char ws i, applyInstAll_char ws]
  simp only []
  rw [plainFold_idem, applyPairs_idem _ _ h]

theorem applyWrites_idem (ws : List WriteOp) (r : List Inst)
    (h : WFRegistry r) :
    applyWrites ws (applyWrites ws r) = applyWrites ws r := by
  rw [applyWrites_map ws r, applyWrites_map, List.map_map]
  apply List.map_congr_left
  intro i hi
  exact applyInstAll_idem ws i (h i hi)

theorem asFloats_map_pyFloat (l : List ℚ) :
    asFloats (l.map PyVal.pyFloat) = some l := by
  induction l with
  | nil => rfl
  | cons q t ih => simp [asFloats, asFloat, ih]

/-! ## Claim theorems -/

/-- Claim C1 (code side): the `GET /metrics` handler body is the rendering
of the registry exactly as the call found it — `get_latest_metrics` of
`metrics/prometheus.py` performs no collection and no gauge update.  On a
registry left stale by an earlier 7-core reading, while the current reading
reports 4 physical cores, the served body still carries the stale
`cpu_physical_count 7.0` sample and not the `cpu_physical_count 4.0`
sample that an update during the call would have produced. -/
theorem metrics_endpoint_renders_stale_registry :
    apiGetMetricsBody staleRegistry = renderBody staleRegistry ∧
    ("cpu_physical_count 7.0") ∈ renderLines staleRegistry ∧
    ("cpu_physical_count 4.0") ∉ renderLines staleRegistry ∧
    ("cpu_physical_count 4.0") ∈
      renderLines (updateCpuMetrics scenarioReading staleRegistry) :=
  ⟨rfl, by decide, by decide, by decide⟩

/-- Claim C2 (counterexample): for the unsupported domain `unknowndomain`
the handler does return a 404, but its detail message is exactly
`Collector <name> not found` — it does not list the valid domain names
(neither `cpu` nor `memory` occurs in it, nor any `Available` listing). -/
theorem unknown_collector_detail_lists_no_domains :
    getCollectorMetrics "unknowndomain" (cpuCollect noFreqEnv)
        (memoryCollect ⟨1, 1, 1, 1, 1⟩ (.error "no swap"))
      = .notFound ("Collector \x27unknowndomain\x27 not found") ∧
    containsSub ("Collector \x27unknowndomain\x27 not found") ("cpu") = false ∧
    containsSub ("Collector \x27unknowndomain\x27 not found") ("memory") = false ∧
    containsSub ("Collector \x27unknowndomain\x27 not found") ("Available") = false := by
  refine ⟨rfl, by decide, by decide, by decide⟩

/-- Claim C2 (amended): every domain string other than `cpu` and `memory`
yields a 404 response whose detail names the unknown collector —
`Collector <name> not found` — whatever the collector readings are. -/
theorem unknown_collector_yields_not_found (c : String) (h₁ : c ≠ "cpu")
    (h₂ : c ≠ "memory") (cpuData : CpuData) (memData : MemData) :
    getCollectorMetrics c cpuData memData
      = .notFound ("Collector \x27" ++ c ++ "\x27 not found") := by
  simp [getCollectorMetrics, h₁, h₂]

/-- Witness for the amended C2 theorem at the concrete domain
`unknowndomain`. -/
theorem unknown_collector_yields_not_found_witness :
    getCollectorMetrics "unknowndomain" (cpuCollect noFreqEnv)
        (memoryCollect ⟨1, 1, 1, 1, 1⟩ (.ok ⟨2, 1, 1, 50, 3, 4⟩))
      = .notFound ("Collector \x27unknowndomain\x27 not found") :=
  unknown_collector_yields_not_found "unknowndomain" (by decide) (by decide) _ _

/-- Claim C3 (code side): with the frequency probe reporting nothing, the
CPU read itself still succeeds and carries the `None` sentinel in all three
frequency slots with the other fields intact — but building `CPUMetrics`
from that reading, as `collect_metrics` does, fails validation: the model
declares flat required fields while the reading is the nested dictionary. -/
theorem cpu_read_survives_missing_frequency_but_assembly_fails :
    (cpuCollect noFreqEnv).freq_current = none ∧
    (cpuCollect noFreqEnv).freq_min = none ∧
    (cpuCollect noFreqEnv).freq_max = none ∧
    (cpuCollect noFreqEnv).physical = 4 ∧
    (cpuCollect noFreqEnv).logical = 8 ∧
    validateCPUMetrics (pyOfCpuData (cpuCollect noFreqEnv))
      = .error "ValidationError: CPUMetrics" :=
  ⟨rfl, rfl, rfl, rfl, rfl, rfl⟩

/-- Claim C4: whenever the swap probe raises, the returned memory reading
has every swap sub-field exactly zero while all virtual-memory fields carry
the probed values unchanged; the read itself returns normally. -/
theorem memory_swap_failure_zeroes_swap (virtual : VirtualMem) (e : String) :
    memoryCollect virtual (.error e)
      = { total := virtual.total, available := virtual.available,
          used := virtual.used, free := virtual.free,
          percent := virtual.percent, swap_total := 0, swap_used := 0,
          swap_free := 0, swap_percent := 0, swap_in := 0, swap_out := 0 } :=
  rfl

/-- Claim C5: if driver initialization fails at construction — the
library import is missing or `nvmlInit`/`nvmlDeviceGetCount` raise — every
subsequent read returns device count `0` with an empty device list,
whatever the per-device environment would have answered. -/
theorem gpu_init_failure_reads_zero (e : Unit) (res : Except Unit ℕ)
    (env₁ env₂ : ℕ → DeviceEnv) :
    gpuCollectMetrics (gpuInit true (.error e)) env₁ = ⟨0, []⟩ ∧
    gpuCollectMetrics (gpuInit false res) env₂ = ⟨0, []⟩ :=
  ⟨rfl, rfl⟩

/-- Claim C6 (counterexample): the model accepts a reading with 8 physical
but only 4 logical cores and percent fields far above 100 — its validation
declares no such constraints. -/
theorem cpu_model_accepts_out_of_range_values :
    validateCPUMetrics outOfRangeCpuKwargs = .ok outOfRangeCpuModel ∧
    outOfRangeCpuModel.logical_cores < outOfRangeCpuModel.physical_cores ∧
    (100 : ℚ) < outOfRangeCpuModel.cpu_percent ∧
    outOfRangeCpuModel.per_cpu_percent.any (fun q => 100 < q) = true :=
  ⟨rfl, by decide, by decide, by decide⟩

/-- Claim C6 (amended): validation of `CPUMetrics` checks field presence
and types only — every well-typed assignment of the 11 flat fields is
accepted exactly as given, with no core-count or percent-range constraint. -/
theorem cpu_model_validation_checks_types_only (m : CPUMetricsM) :
    validateCPUMetrics (kwargsOfCPUMetrics m) = .ok m := by
  simp [validateCPUMetrics, kwargsOfCPUMetrics, reqInt, reqFloat, reqFloatList,
        pyLookup, asInt, asFloat, asFloats_map_pyFloat]

/-- Claim C7: registering the full metric family once from an empty
registry succeeds (the construction-time `_register_metrics`), and a second
registration of any of those names against the resulting registry is
rejected with the duplicate-metric error. -/
theorem duplicate_metric_registration_errors :
    registerAll metricSpecs [] = .ok collectorsRegistry ∧
    metricSpecs.all (fun s => !(isOkE (registerGauge collectorsRegistry s))) = true :=
  ⟨rfl, by decide⟩

/-- Claim C8: rendering is a function of the registry state and a repeated
update from the same snapshot leaves the state untouched, so update-render
performed twice for a fixed snapshot yields byte-identical exposition
output, label ordering included. -/
theorem render_deterministic_for_fixed_snapshot (m : SystemMetricsM)
    (r : List Inst) (h : WFRegistry r) :
    getPrometheusMetrics (updatePrometheusMetrics m (updatePrometheusMetrics m r))
      = getPrometheusMetrics (updatePrometheusMetrics m r) := by
  unfold getPrometheusMetrics updatePrometheusMetrics
  rw [applyWrites_idem _ _ h]

/-- Witness for C8 at a concrete snapshot and the freshly constructed
registry. -/
theorem render_deterministic_for_fixed_snapshot_witness :
    getPrometheusMetrics
        (updatePrometheusMetrics sampleSystem
          (updatePrometheusMetrics sampleSystem collectorsRegistry))
      = getPrometheusMetrics (updatePrometheusMetrics sampleSystem collectorsRegistry) :=
  render_deterministic_for_fixed_snapshot sampleSystem collectorsRegistry
    (by unfold WFRegistry; decide)

/-- Claim C9 (counterexample): the exposition format renders sample values
from the stored float's `repr`, so after updating from the scenario reading
no rendered line is `cpu_physical_count 4` and none is the claimed
per-core line with bare value `20` — the integral values carry `.0`. -/
theorem scenario_claimed_lines_absent_from_render :
    ("cpu_physical_count 4") ∉
      renderLines (updateCpuMetrics scenarioReading promRegistry) ∧
    ("cpu_percent_per_cpu\x7bcore=\"0\"\x7d 20") ∉
      renderLines (updateCpuMetrics scenarioReading promRegistry) := by
  refine ⟨by decide, by decide⟩

/-- Claim C9 (amended): updating the registry from the scenario reading and
rendering produces the sample line `cpu_physical_count 4.0` and the
per-core sample line for core ordinal 0 with value `20.0` (per-core samples
labeled by the core ordinal as a string). -/
theorem update_and_render_contains_cpu_sample_lines :
    ("cpu_physical_count 4.0") ∈
      renderLines (updateCpuMetrics scenarioReading promRegistry) ∧
    ("cpu_percent_per_cpu\x7bcore=\"0\"\x7d 20.0") ∈
      renderLines (updateCpuMetrics scenarioReading promRegistry) := by
  refine ⟨by decide, by decide⟩

/-- Claim C10: whenever the driver is available, the reported device count
is the construction-time count and the device list never exceeds it, even
when individual devices are skipped. -/
theorem gpu_device_count_matches_construction (st : GPUState)
    (env : ℕ → DeviceEnv) (h : st.has_nvidia = true) :
    (gpuCollectMetrics st env).device_count = st.device_count ∧
    (gpuCollectMetrics st env).devices.length ≤ st.device_count := by
  have hne : ¬ st.has_nvidia = false := by rw [h]; simp
  constructor
  · simp [gpuCollectMetrics, hne]
  · simp only [gpuCollectMetrics, if_neg hne]
    exact le_trans (List.length_filterMap_le _ _) (le_of_eq (List.length_range _))

/-- Witness for C10: a three-device collector whose middle device fails its
handle lookup still reports device count 3 with only 2 listed devices. -/
theorem gpu_device_count_matches_construction_witness :
    ((gpuCollectMetrics ⟨true, 3⟩ skipOneDeviceEnv).device_count
        = (⟨true, 3⟩ : GPUState).device_count ∧
      (gpuCollectMetrics ⟨true, 3⟩ skipOneDeviceEnv).devices.length
        ≤ (⟨true, 3⟩ : GPUState).device_count) ∧
    (gpuCollectMetrics ⟨true, 3⟩ skipOneDeviceEnv).devices.length = 2 :=
  ⟨gpu_device_count_matches_construction ⟨true, 3⟩ skipOneDeviceEnv rfl, rfl⟩

end PHG
